import Mathlib

/-!
Verification of `p2p/base/transport_description.cc` (WebRTC, `cricket` namespace).

The file shallowly embeds the credential validator (`ParseIceUfrag`,
`ParseIcePwd`, `IceParameters::Parse`), the connection-role string
conversions, and the `TransportDescription` copy operations, then proves
the specified properties about them.

Strings are modelled as Lean `String` (a list of characters); the C++
code operates on byte strings, and every character class used here is
ASCII-only, so the two views agree on the inputs the code classifies.
-/

/-- Modelled from the spec: the length-bound constants
`ICE_UFRAG_MIN_LENGTH`, `ICE_UFRAG_MAX_LENGTH`, `ICE_PWD_MIN_LENGTH`,
`ICE_PWD_MAX_LENGTH` come from `p2p/base/p2p_constants.h`, which is not
part of this fragment; the spec treats them as fixed protocol constants
(ufrag bounds narrower than pwd bounds). Values are the protocol-defined
ones. -/
def ICE_UFRAG_MIN_LENGTH : Nat := 4

/-- Modelled from the spec: see `ICE_UFRAG_MIN_LENGTH`. -/
def ICE_UFRAG_MAX_LENGTH : Nat := 256

/-- Modelled from the spec: see `ICE_UFRAG_MIN_LENGTH`. -/
def ICE_PWD_MIN_LENGTH : Nat := 22

/-- Modelled from the spec: see `ICE_UFRAG_MIN_LENGTH`. -/
def ICE_PWD_MAX_LENGTH : Nat := 256

/-- Error kinds surfaced by this core; only `SYNTAX_ERROR` originates here
(embedding of `webrtc::RTCErrorType` restricted to the used member). -/
inductive RTCErrorType where
  | SYNTAX_ERROR
deriving Repr, DecidableEq

/-- Embedding of `webrtc::RTCError`: an error kind plus a message. -/
structure RTCError where
  type : RTCErrorType
  message : String
deriving Repr, DecidableEq

deriving instance DecidableEq for Except

/-- Success test of an `RTCErrorOr` value (the `.ok()` accessor). -/
def exceptOk {ε α : Type} : Except ε α → Bool
  | Except.ok _ => true
  | Except.error _ => false

/-- Embedding of `IsIceChar` (transport_description.cc line 26):
ASCII alphanumeric or one of the two extra characters. Lean's
`Char.isAlphanum` is the ASCII classification, matching
`absl::ascii_isalnum`. -/
def IsIceChar (c : Char) : Bool :=
  c.isAlphanum || c == '+' || c == '/'

/-- Embedding of `ParseIceUfrag` (transport_description.cc lines 30-46):
length bounds first, then the character class, else the input unchanged. -/
def ParseIceUfrag (raw_ufrag : String) : Except RTCError String :=
  if ¬ (ICE_UFRAG_MIN_LENGTH ≤ raw_ufrag.length ∧
        raw_ufrag.length ≤ ICE_UFRAG_MAX_LENGTH) then
    Except.error ⟨RTCErrorType.SYNTAX_ERROR,
      "ICE ufrag must be between " ++ toString ICE_UFRAG_MIN_LENGTH ++
      " and " ++ toString ICE_UFRAG_MAX_LENGTH ++ " characters long."⟩
  else if ¬ raw_ufrag.data.all IsIceChar then
    Except.error ⟨RTCErrorType.SYNTAX_ERROR,
      "ICE ufrag must contain only alphanumeric characters, '+', and '/'."⟩
  else
    Except.ok raw_ufrag

/-- Embedding of `ParseIcePwd` (transport_description.cc lines 48-64). -/
def ParseIcePwd (raw_pwd : String) : Except RTCError String :=
  if ¬ (ICE_PWD_MIN_LENGTH ≤ raw_pwd.length ∧
        raw_pwd.length ≤ ICE_PWD_MAX_LENGTH) then
    Except.error ⟨RTCErrorType.SYNTAX_ERROR,
      "ICE pwd must be between " ++ toString ICE_PWD_MIN_LENGTH ++
      " and " ++ toString ICE_PWD_MAX_LENGTH ++ " characters long."⟩
  else if ¬ raw_pwd.data.all IsIceChar then
    Except.error ⟨RTCErrorType.SYNTAX_ERROR,
      "ICE pwd must contain only alphanumeric characters, '+', and '/'."⟩
  else
    Except.ok raw_pwd

/-- Embedding of `cricket::IceParameters` (fields only; the header
declares the two string fields with empty defaults). -/
structure IceParameters where
  ufrag : String := ""
  pwd : String := ""
deriving Repr, DecidableEq

/-- Embedding of `IceParameters::Parse` (transport_description.cc lines
69-92): legacy empty/empty shortcut, then ufrag validation, then pwd
validation, short-circuiting on the first error. -/
def IceParameters.Parse (raw_ufrag raw_pwd : String) :
    Except RTCError IceParameters :=
  if raw_ufrag = "" ∧ raw_pwd = "" then
    Except.ok {}
  else
    match ParseIceUfrag raw_ufrag with
    | Except.error e => Except.error e
    | Except.ok u =>
      match ParseIcePwd raw_pwd with
      | Except.error e => Except.error e
      | Except.ok p => Except.ok ⟨u, p⟩

/-- Conjunction of the two checks `ParseIceUfrag` performs, as a Boolean
predicate (used to state validity of a returned ufrag). -/
def ufragValid (s : String) : Bool :=
  (decide (ICE_UFRAG_MIN_LENGTH ≤ s.length) &&
   decide (s.length ≤ ICE_UFRAG_MAX_LENGTH)) && s.data.all IsIceChar

/-- Conjunction of the two checks `ParseIcePwd` performs, as a Boolean
predicate. -/
def pwdValid (s : String) : Bool :=
  (decide (ICE_PWD_MIN_LENGTH ≤ s.length) &&
   decide (s.length ≤ ICE_PWD_MAX_LENGTH)) && s.data.all IsIceChar

/-- Modelled from the spec: `ConnectionRole` is declared in
`transport_description.h` (not part of this fragment) as a closed C++
enumeration in the order None, Active, Passive, ActPass, HoldConn; the
code does arithmetic on it (`CONNECTIONROLE_ACTIVE + i`) and casts
integers into it, so it is embedded as its underlying integer value. -/
abbrev ConnectionRole := Nat

/-- Modelled from the spec: the first enumerator of the role enumeration. -/
def CONNECTIONROLE_NONE : ConnectionRole := 0

/-- Modelled from the spec: the second enumerator. -/
def CONNECTIONROLE_ACTIVE : ConnectionRole := 1

/-- Modelled from the spec: the third enumerator. -/
def CONNECTIONROLE_PASSIVE : ConnectionRole := 2

/-- Modelled from the spec: the fourth enumerator. -/
def CONNECTIONROLE_ACTPASS : ConnectionRole := 3

/-- Modelled from the spec: the fifth enumerator. -/
def CONNECTIONROLE_HOLDCONN : ConnectionRole := 4

/-- Modelled from the spec: the four fixed lowercase role tokens declared
in `transport_description.h`. -/
def CONNECTIONROLE_ACTIVE_STR : String := "active"

/-- Modelled from the spec: see `CONNECTIONROLE_ACTIVE_STR`. -/
def CONNECTIONROLE_PASSIVE_STR : String := "passive"

/-- Modelled from the spec: see `CONNECTIONROLE_ACTIVE_STR`. -/
def CONNECTIONROLE_ACTPASS_STR : String := "actpass"

/-- Modelled from the spec: see `CONNECTIONROLE_ACTIVE_STR`. -/
def CONNECTIONROLE_HOLDCONN_STR : String := "holdconn"

/-- ASCII lower-casing of one character, as `absl::ascii_tolower` does it:
only the uppercase ASCII letters move. -/
def AsciiToLower (c : Char) : Char :=
  if c.isUpper then Char.ofNat (c.toNat + 32) else c

/-- Embedding of `absl::EqualsIgnoreCase`: equality of the two strings
after ASCII lower-casing (which implies equal lengths). -/
def EqualsIgnoreCase (piece1 piece2 : String) : Bool :=
  decide (piece1.data.map AsciiToLower = piece2.data.map AsciiToLower)

/-- The in-order array of the four role tokens scanned by
`StringToConnectionRole` (transport_description.cc lines 95-97). -/
def rolesArray : List String :=
  [CONNECTIONROLE_ACTIVE_STR, CONNECTIONROLE_PASSIVE_STR,
   CONNECTIONROLE_ACTPASS_STR, CONNECTIONROLE_HOLDCONN_STR]

/-- The scanning loop of `StringToConnectionRole` (lines 99-104): on the
first case-insensitive match at index `i` it writes
`CONNECTIONROLE_ACTIVE + i` to the out-parameter and returns true;
exhaustion returns false with the out-parameter untouched. -/
def stringToConnectionRoleLoop (role_str : String) (role : ConnectionRole) :
    List String → Nat → Bool × ConnectionRole
  | [], _ => (false, role)
  | r :: rest, i =>
    if EqualsIgnoreCase r role_str then (true, CONNECTIONROLE_ACTIVE + i)
    else stringToConnectionRoleLoop role_str role rest (i + 1)

/-- Embedding of `StringToConnectionRole` (transport_description.cc lines
94-106). The second argument is the prior value of the `role`
out-parameter; the result pairs the returned Bool with the out-parameter
value after the call. -/
def StringToConnectionRole (role_str : String) (role : ConnectionRole) :
    Bool × ConnectionRole :=
  stringToConnectionRoleLoop role_str role rolesArray 0

/-- Embedding of `ConnectionRoleToString` (transport_description.cc lines
108-126). The second argument is the prior value of the `role_str`
out-parameter; the result pairs the returned Bool with the out-parameter
value after the call. The switch cases appear in source order. -/
def ConnectionRoleToString (role : ConnectionRole) (role_str : String) :
    Bool × String :=
  if role = CONNECTIONROLE_ACTIVE then (true, CONNECTIONROLE_ACTIVE_STR)
  else if role = CONNECTIONROLE_ACTPASS then (true, CONNECTIONROLE_ACTPASS_STR)
  else if role = CONNECTIONROLE_PASSIVE then (true, CONNECTIONROLE_PASSIVE_STR)
  else if role = CONNECTIONROLE_HOLDCONN then (true, CONNECTIONROLE_HOLDCONN_STR)
  else (false, role_str)

/-- Modelled from the spec: `rtc::SSLFingerprint` is an external
collaborator, consumed as an opaque comparable/copyable value (an
algorithm name plus a digest). -/
structure SSLFingerprint where
  algorithm : String
  digest : List Nat
deriving Repr, DecidableEq

/-- Heap of fingerprint allocations: each `unique_ptr<rtc::SSLFingerprint>`
slot is an address (index) into this list; allocation appends. This makes
ownership and aliasing of fingerprint storage expressible. -/
structure FingerprintHeap where
  cells : List SSLFingerprint
deriving Repr, DecidableEq

/-- Dereference a fingerprint address. -/
def FingerprintHeap.get (h : FingerprintHeap) (a : Nat) :
    Option SSLFingerprint :=
  h.cells[a]?

/-- Allocate fresh storage holding a copy of `f`; returns the new heap and
the fresh address. -/
def FingerprintHeap.alloc (h : FingerprintHeap) (f : SSLFingerprint) :
    FingerprintHeap × Nat :=
  (⟨h.cells ++ [f]⟩, h.cells.length)

/-- An address is valid when it points into the heap. -/
def FingerprintHeap.validPtr (h : FingerprintHeap) (a : Nat) : Prop :=
  a < h.cells.length

/-- Value held by an optional fingerprint pointer (none for null). -/
def fingerprintValue (h : FingerprintHeap) (p : Option Nat) :
    Option SSLFingerprint :=
  p.bind h.get

/-- Modelled from the spec: `CopyFingerprint` is declared in
`transport_description.h` (not part of this fragment); per the spec the
fingerprint is deep-copied into an exclusively-owned fresh slot, null in,
null out. -/
def CopyFingerprint (h : FingerprintHeap) (p : Option Nat) :
    FingerprintHeap × Option Nat :=
  match p with
  | none => (h, none)
  | some a =>
    match h.get a with
    | none => (h, none)
    | some f =>
      let ha := h.alloc f
      (ha.1, some ha.2)

/-- Embedding of `cricket::IceMode` (declared in the header; spec: enum
with members Full and Lite, default Full). -/
inductive IceMode where
  | ICEMODE_FULL
  | ICEMODE_LITE
deriving Repr, DecidableEq

/-- Modelled from the spec: the opaque-parameter mapping attached to a
transport description, copied by value. -/
abbrev OpaqueParameters := List (String × String)

/-- Embedding of `cricket::TransportDescription` (fields per the header
and the spec); `identity_fingerprint` is an optional address into a
`FingerprintHeap`, standing for `std::unique_ptr<rtc::SSLFingerprint>`. -/
structure TransportDescription where
  transport_options : List String
  ice_ufrag : String
  ice_pwd : String
  ice_mode : IceMode
  connection_role : ConnectionRole
  identity_fingerprint : Option Nat
  opaque_parameters : OpaqueParameters
deriving Repr, DecidableEq

/-- Embedding of the copy constructor (transport_description.cc lines
152-159): every field is copied from `src`, with the fingerprint
re-copied through `CopyFingerprint` into fresh storage. -/
def TransportDescription.copyCtor (h : FingerprintHeap)
    (src : TransportDescription) : FingerprintHeap × TransportDescription :=
  let cf := CopyFingerprint h src.identity_fingerprint
  (cf.1,
   { transport_options := src.transport_options
     ice_ufrag := src.ice_ufrag
     ice_pwd := src.ice_pwd
     ice_mode := src.ice_mode
     connection_role := src.connection_role
     identity_fingerprint := cf.2
     opaque_parameters := src.opaque_parameters })

/-- Embedding of copy assignment (transport_description.cc lines 163-178).
The Boolean `isSelf` stands for the pointer identity test
`this == &from`: when true the operator returns `*this` unchanged;
otherwise every field is assigned from `src` and the fingerprint slot is
reset to a fresh deep copy. -/
def TransportDescription.assign (h : FingerprintHeap)
    (self src : TransportDescription) (isSelf : Bool) :
    FingerprintHeap × TransportDescription :=
  if isSelf then (h, self)
  else
    let cf := CopyFingerprint h src.identity_fingerprint
    (cf.1,
     { transport_options := src.transport_options
       ice_ufrag := src.ice_ufrag
       ice_pwd := src.ice_pwd
       ice_mode := src.ice_mode
       connection_role := src.connection_role
       identity_fingerprint := cf.2
       opaque_parameters := src.opaque_parameters })

/-- Deep-copy relation between a source description in heap `h` and a
result pair (heap after the copy, copied description): all plain fields
are equal, the fingerprint value is preserved, a null fingerprint maps to
null, and a valid non-null fingerprint is re-copied to a fresh address
distinct from the source's, so the two slots are never aliased. -/
def DeepCopyOf (h : FingerprintHeap) (src : TransportDescription)
    (res : FingerprintHeap × TransportDescription) : Prop :=
  res.2.transport_options = src.transport_options ∧
  res.2.ice_ufrag = src.ice_ufrag ∧
  res.2.ice_pwd = src.ice_pwd ∧
  res.2.ice_mode = src.ice_mode ∧
  res.2.connection_role = src.connection_role ∧
  res.2.opaque_parameters = src.opaque_parameters ∧
  fingerprintValue res.1 res.2.identity_fingerprint =
    fingerprintValue h src.identity_fingerprint ∧
  (src.identity_fingerprint = none → res.2.identity_fingerprint = none) ∧
  (∀ a, src.identity_fingerprint = some a → h.validPtr a →
     ∃ b, res.2.identity_fingerprint = some b ∧ b ≠ a)

/-- Helper: a successful `ParseIceUfrag` returns its input unchanged and
certifies both checks. -/
theorem ParseIceUfrag_ok (s v : String) (h : ParseIceUfrag s = Except.ok v) :
    v = s ∧ ufragValid s = true := by
  unfold ParseIceUfrag at h
  by_cases hb : ICE_UFRAG_MIN_LENGTH ≤ s.length ∧ s.length ≤ ICE_UFRAG_MAX_LENGTH
  · rw [if_neg (not_not_intro hb)] at h
    by_cases hc : s.data.all IsIceChar = true
    · rw [if_neg (not_not_intro hc)] at h
      injection h with h
      exact ⟨h.symm, by simp [ufragValid, hb.1, hb.2, hc]⟩
    · simp [hc] at h
  · rw [if_pos hb] at h
    exact absurd h (by simp)

/-- Helper: a successful `ParseIcePwd` returns its input unchanged and
certifies both checks. -/
theorem ParseIcePwd_ok (s v : String) (h : ParseIcePwd s = Except.ok v) :
    v = s ∧ pwdValid s = true := by
  unfold ParseIcePwd at h
  by_cases hb : ICE_PWD_MIN_LENGTH ≤ s.length ∧ s.length ≤ ICE_PWD_MAX_LENGTH
  · rw [if_neg (not_not_intro hb)] at h
    by_cases hc : s.data.all IsIceChar = true
    · rw [if_neg (not_not_intro hc)] at h
      injection h with h
      exact ⟨h.symm, by simp [pwdValid, hb.1, hb.2, hc]⟩
    · simp [hc] at h
  · rw [if_pos hb] at h
    exact absurd h (by simp)

/-- Helper: a string passing the ufrag checks is non-empty (its length is
at least the minimum, which is positive). -/
theorem ufragValid_ne_empty (s : String) (h : ufragValid s = true) :
    s ≠ "" := by
  intro he
  rw [he] at h
  exact absurd h (by decide)

/-- Helper: a string passing the pwd checks is non-empty. -/
theorem pwdValid_ne_empty (s : String) (h : pwdValid s = true) : s ≠ "" := by
  intro he
  rw [he] at h
  exact absurd h (by decide)

/-- Helper: a string that case-insensitively equals `b` cannot also
case-insensitively equal `a` when `a` and `b` differ after lower-casing. -/
theorem equalsIgnoreCase_chain (a b t : String)
    (hab : ¬ (a.data.map AsciiToLower = b.data.map AsciiToLower))
    (hbt : EqualsIgnoreCase b t = true) : EqualsIgnoreCase a t = false := by
  simp only [EqualsIgnoreCase, decide_eq_true_eq] at hbt
  simp only [EqualsIgnoreCase, decide_eq_false_iff_not]
  intro hat
  exact hab (hat.trans hbt.symm)

/-- Helper: `CopyFingerprint` preserves the pointed-to value, maps null to
null, and allocates a fresh address distinct from any valid source
address. -/
theorem CopyFingerprint_spec (h : FingerprintHeap) (p : Option Nat) :
    fingerprintValue (CopyFingerprint h p).1 (CopyFingerprint h p).2 =
      fingerprintValue h p ∧
    (p = none → (CopyFingerprint h p).2 = none) ∧
    (∀ a, p = some a → h.validPtr a →
       ∃ b, (CopyFingerprint h p).2 = some b ∧ b ≠ a) := by
  cases p with
  | none => exact ⟨rfl, fun _ => rfl, fun a ha => by cases ha⟩
  | some a =>
    cases hg : h.get a with
    | none =>
      refine ⟨?_, ?_, ?_⟩
      · simp [CopyFingerprint, hg, fingerprintValue]
      · intro hn; cases hn
      · intro a2 ha2 hv
        injection ha2 with ha2
        subst ha2
        unfold FingerprintHeap.get at hg
        unfold FingerprintHeap.validPtr at hv
        rw [List.getElem?_eq_getElem hv] at hg
        cases hg
    | some f =>
      have hres : CopyFingerprint h (some a) =
          (⟨h.cells ++ [f]⟩, some h.cells.length) := by
        simp [CopyFingerprint, hg, FingerprintHeap.alloc]
      refine ⟨?_, ?_, ?_⟩
      · rw [hres]
        unfold fingerprintValue FingerprintHeap.get
        simp only [Option.some_bind]
        rw [List.getElem?_concat_length]
        unfold FingerprintHeap.get at hg
        rw [hg]
      · intro hn; cases hn
      · intro a2 ha2 hv
        injection ha2 with ha2
        subst ha2
        unfold FingerprintHeap.validPtr at hv
        exact ⟨h.cells.length, by rw [hres], Nat.ne_of_gt hv⟩

/-- Helper: when the scanning loop fails, it leaves the out-parameter at
its prior value, whatever the start index. -/
theorem stringToConnectionRoleLoop_fail (s : String) (r0 : ConnectionRole)
    (l : List String) : ∀ i, (stringToConnectionRoleLoop s r0 l i).1 = false →
    (stringToConnectionRoleLoop s r0 l i).2 = r0 := by
  induction l with
  | nil => intro i _; rfl
  | cons r rest ih =>
    intro i hfail
    by_cases hm : EqualsIgnoreCase r s = true
    · rw [stringToConnectionRoleLoop, if_pos hm] at hfail
      cases hfail
    · rw [stringToConnectionRoleLoop, if_neg hm] at hfail ⊢
      exact ih (i + 1) hfail

/-- C2: for every string s whose length lies within the relevant bound
pair (ufrag bounds for the ufrag validator, pwd bounds for the pwd
validator), parsing succeeds iff every character of s is ASCII
alphanumeric or the plus or slash character; on success the returned
string equals s unchanged, and on failure the result is a SYNTAX_ERROR. -/
theorem parseIce_within_bounds_char_check (s : String) :
    ((ICE_UFRAG_MIN_LENGTH ≤ s.length ∧ s.length ≤ ICE_UFRAG_MAX_LENGTH) →
      (exceptOk (ParseIceUfrag s) = true ↔ s.data.all IsIceChar = true) ∧
      (s.data.all IsIceChar = true → ParseIceUfrag s = Except.ok s) ∧
      (s.data.all IsIceChar = false →
        ParseIceUfrag s = Except.error ⟨RTCErrorType.SYNTAX_ERROR,
          "ICE ufrag must contain only alphanumeric characters, '+', and '/'."⟩)) ∧
    ((ICE_PWD_MIN_LENGTH ≤ s.length ∧ s.length ≤ ICE_PWD_MAX_LENGTH) →
      (exceptOk (ParseIcePwd s) = true ↔ s.data.all IsIceChar = true) ∧
      (s.data.all IsIceChar = true → ParseIcePwd s = Except.ok s) ∧
      (s.data.all IsIceChar = false →
        ParseIcePwd s = Except.error ⟨RTCErrorType.SYNTAX_ERROR,
          "ICE pwd must contain only alphanumeric characters, '+', and '/'."⟩)) := by
  constructor
  · intro hb
    unfold ParseIceUfrag
    rw [if_neg (not_not_intro hb)]
    by_cases hc : s.data.all IsIceChar = true
    · rw [if_neg (not_not_intro hc)]
      exact ⟨by simp [exceptOk, hc], fun _ => rfl,
        fun hf => by rw [hc] at hf; cases hf⟩
    · have hcf : s.data.all IsIceChar = false := by
        cases hx : s.data.all IsIceChar
        · rfl
        · exact absurd hx hc
      rw [if_pos hc]
      exact ⟨by simp [exceptOk, hcf], fun ht => absurd ht hc, fun _ => rfl⟩
  · intro hb
    unfold ParseIcePwd
    rw [if_neg (not_not_intro hb)]
    by_cases hc : s.data.all IsIceChar = true
    · rw [if_neg (not_not_intro hc)]
      exact ⟨by simp [exceptOk, hc], fun _ => rfl,
        fun hf => by rw [hc] at hf; cases hf⟩
    · have hcf : s.data.all IsIceChar = false := by
        cases hx : s.data.all IsIceChar
        · rfl
        · exact absurd hx hc
      rw [if_pos hc]
      exact ⟨by simp [exceptOk, hcf], fun ht => absurd ht hc, fun _ => rfl⟩

/-- Witness for the C2 theorem at concrete inputs within both bound
pairs. -/
theorem parseIce_within_bounds_char_check_witness :
    ParseIceUfrag "abcdefghij0123456789AB" = Except.ok "abcdefghij0123456789AB" ∧
    ParseIcePwd "abcdefghij0123456789AB" = Except.ok "abcdefghij0123456789AB" :=
  ⟨((parseIce_within_bounds_char_check "abcdefghij0123456789AB").1
      (by decide)).2.1 (by decide),
   ((parseIce_within_bounds_char_check "abcdefghij0123456789AB").2
      (by decide)).2.1 (by decide)⟩

/-- C3: for every string whose length is outside the relevant bound pair,
the validator fails with the SYNTAX_ERROR length message naming the field
kind and the exact bound pair, regardless of the characters in the
string (the length check precedes the character-set check). -/
theorem parseIce_length_error_first (s : String) :
    (¬ (ICE_UFRAG_MIN_LENGTH ≤ s.length ∧ s.length ≤ ICE_UFRAG_MAX_LENGTH) →
      ParseIceUfrag s = Except.error ⟨RTCErrorType.SYNTAX_ERROR,
        "ICE ufrag must be between 4 and 256 characters long."⟩) ∧
    (¬ (ICE_PWD_MIN_LENGTH ≤ s.length ∧ s.length ≤ ICE_PWD_MAX_LENGTH) →
      ParseIcePwd s = Except.error ⟨RTCErrorType.SYNTAX_ERROR,
        "ICE pwd must be between 22 and 256 characters long."⟩) := by
  constructor
  · intro hb
    unfold ParseIceUfrag
    rw [if_pos hb]
    rfl
  · intro hb
    unfold ParseIcePwd
    rw [if_pos hb]
    rfl

/-- Witness for the C3 theorem: a too-short string made of disallowed
characters reports the length error, not the character error. -/
theorem parseIce_length_error_first_witness :
    ParseIceUfrag "!?" = Except.error ⟨RTCErrorType.SYNTAX_ERROR,
      "ICE ufrag must be between 4 and 256 characters long."⟩ ∧
    ParseIcePwd "!?" = Except.error ⟨RTCErrorType.SYNTAX_ERROR,
      "ICE pwd must be between 22 and 256 characters long."⟩ :=
  ⟨(parseIce_length_error_first "!?").1 (by decide),
   (parseIce_length_error_first "!?").2 (by decide)⟩

/-- C4: parsing the empty ufrag together with the empty pwd succeeds and
returns the all-empty IceParameters through the legacy no-credentials
path, bypassing all validation. -/
theorem iceParameters_parse_empty_empty :
    IceParameters.Parse "" "" = Except.ok ⟨"", ""⟩ := by decide

/-- C5: for inputs not both empty, Parse validates the ufrag first and
returns its error whatever the pwd is; if the ufrag passes and the pwd
fails, it returns the pwd error; if both pass, it returns exactly the two
validated strings. -/
theorem iceParameters_parse_short_circuit (u p : String)
    (h : ¬ (u = "" ∧ p = "")) :
    (∀ e, ParseIceUfrag u = Except.error e →
        IceParameters.Parse u p = Except.error e) ∧
    (∀ u2 e, ParseIceUfrag u = Except.ok u2 → ParseIcePwd p = Except.error e →
        IceParameters.Parse u p = Except.error e) ∧
    (∀ u2 p2, ParseIceUfrag u = Except.ok u2 → ParseIcePwd p = Except.ok p2 →
        IceParameters.Parse u p = Except.ok ⟨u2, p2⟩) := by
  refine ⟨?_, ?_, ?_⟩
  · intro e he
    unfold IceParameters.Parse
    rw [if_neg h, he]
  · intro u2 e hu hp
    unfold IceParameters.Parse
    rw [if_neg h, hu, hp]
  · intro u2 p2 hu hp
    unfold IceParameters.Parse
    rw [if_neg h, hu, hp]

/-- Witness for the C5 theorem: both validators pass on these concrete
inputs and Parse returns exactly the validated pair. -/
theorem iceParameters_parse_short_circuit_witness :
    IceParameters.Parse "abcd" "0123456789012345678901" =
      Except.ok ⟨"abcd", "0123456789012345678901"⟩ :=
  (iceParameters_parse_short_circuit "abcd" "0123456789012345678901"
    (by decide)).2.2 "abcd" "0123456789012345678901" (by decide) (by decide)

/-- C1: every successful Parse result is either fully empty or fully
validated (both fields non-empty and passing their checks); in
particular, Parse of the empty ufrag with a non-empty valid pwd fails. -/
theorem iceParameters_parse_all_or_nothing (u p : String) :
    (∀ r, IceParameters.Parse u p = Except.ok r →
        (r.ufrag = "" ∧ r.pwd = "") ∨
        (r.ufrag ≠ "" ∧ r.pwd ≠ "" ∧
         ufragValid r.ufrag = true ∧ pwdValid r.pwd = true)) ∧
    (u = "" → p ≠ "" → pwdValid p = true →
        exceptOk (IceParameters.Parse u p) = false) := by
  constructor
  · intro r hr
    unfold IceParameters.Parse at hr
    by_cases hee : u = "" ∧ p = ""
    · rw [if_pos hee] at hr
      injection hr with hr
      subst hr
      exact Or.inl ⟨rfl, rfl⟩
    · rw [if_neg hee] at hr
      cases hu : ParseIceUfrag u with
      | error e => rw [hu] at hr; cases hr
      | ok u2 =>
        rw [hu] at hr
        cases hp : ParseIcePwd p with
        | error e => rw [hp] at hr; cases hr
        | ok p2 =>
          rw [hp] at hr
          injection hr with hr
          subst hr
          obtain ⟨hu2, huv⟩ := ParseIceUfrag_ok u u2 hu
          obtain ⟨hp2, hpv⟩ := ParseIcePwd_ok p p2 hp
          subst hu2
          subst hp2
          exact Or.inr ⟨ufragValid_ne_empty _ huv, pwdValid_ne_empty _ hpv,
            huv, hpv⟩
  · intro hu hp _
    subst hu
    have hne : ¬ (("" : String) = "" ∧ p = "") := fun hc => hp hc.2
    unfold IceParameters.Parse
    rw [if_neg hne]
    have hErr : ParseIceUfrag "" = Except.error ⟨RTCErrorType.SYNTAX_ERROR,
        "ICE ufrag must be between 4 and 256 characters long."⟩ := by decide
    rw [hErr]
    rfl

/-- Witness for the C1 theorem: a concrete successful parse lands in the
fully-validated branch, and the empty-ufrag/valid-pwd input fails. -/
theorem iceParameters_parse_all_or_nothing_witness :
    ((((⟨"abcd", "0123456789012345678901"⟩ : IceParameters).ufrag = "" ∧
       (⟨"abcd", "0123456789012345678901"⟩ : IceParameters).pwd = "") ∨
      ((⟨"abcd", "0123456789012345678901"⟩ : IceParameters).ufrag ≠ "" ∧
       (⟨"abcd", "0123456789012345678901"⟩ : IceParameters).pwd ≠ "" ∧
       ufragValid (⟨"abcd", "0123456789012345678901"⟩ : IceParameters).ufrag = true ∧
       pwdValid (⟨"abcd", "0123456789012345678901"⟩ : IceParameters).pwd = true))) ∧
    exceptOk (IceParameters.Parse "" "0123456789012345678901") = false :=
  ⟨(iceParameters_parse_all_or_nothing "abcd" "0123456789012345678901").1
      ⟨"abcd", "0123456789012345678901"⟩ (by decide),
   (iceParameters_parse_all_or_nothing "" "0123456789012345678901").2 rfl
      (by decide) (by decide)⟩

/-- C6: each of the four named roles converts to its fixed token, and any
string that case-insensitively equals that token converts back to the
original role, whatever the out-parameters held before. -/
theorem connectionRole_string_round_trip (s0 : String) (r0 : ConnectionRole) :
    (ConnectionRoleToString CONNECTIONROLE_ACTIVE s0 =
        (true, CONNECTIONROLE_ACTIVE_STR) ∧
     ∀ t, EqualsIgnoreCase CONNECTIONROLE_ACTIVE_STR t = true →
        StringToConnectionRole t r0 = (true, CONNECTIONROLE_ACTIVE)) ∧
    (ConnectionRoleToString CONNECTIONROLE_PASSIVE s0 =
        (true, CONNECTIONROLE_PASSIVE_STR) ∧
     ∀ t, EqualsIgnoreCase CONNECTIONROLE_PASSIVE_STR t = true →
        StringToConnectionRole t r0 = (true, CONNECTIONROLE_PASSIVE)) ∧
    (ConnectionRoleToString CONNECTIONROLE_ACTPASS s0 =
        (true, CONNECTIONROLE_ACTPASS_STR) ∧
     ∀ t, EqualsIgnoreCase CONNECTIONROLE_ACTPASS_STR t = true →
        StringToConnectionRole t r0 = (true, CONNECTIONROLE_ACTPASS)) ∧
    (ConnectionRoleToString CONNECTIONROLE_HOLDCONN s0 =
        (true, CONNECTIONROLE_HOLDCONN_STR) ∧
     ∀ t, EqualsIgnoreCase CONNECTIONROLE_HOLDCONN_STR t = true →
        StringToConnectionRole t r0 = (true, CONNECTIONROLE_HOLDCONN)) := by
  refine ⟨⟨?_, ?_⟩, ⟨?_, ?_⟩, ⟨?_, ?_⟩, ⟨?_, ?_⟩⟩
  · unfold ConnectionRoleToString
    rw [if_pos rfl]
  · intro t ht
    unfold StringToConnectionRole rolesArray stringToConnectionRoleLoop
    rw [if_pos ht]
    rfl
  · unfold ConnectionRoleToString
    rw [if_neg (by decide), if_neg (by decide), if_pos rfl]
  · intro t ht
    have h1 : ¬ (EqualsIgnoreCase CONNECTIONROLE_ACTIVE_STR t = true) := by
      rw [equalsIgnoreCase_chain _ CONNECTIONROLE_PASSIVE_STR _ (by decide) ht]
      exact Bool.false_ne_true
    unfold StringToConnectionRole rolesArray
    simp only [stringToConnectionRoleLoop]
    rw [if_neg h1, if_pos ht]
    rfl
  · unfold ConnectionRoleToString
    rw [if_neg (by decide), if_pos rfl]
  · intro t ht
    have h1 : ¬ (EqualsIgnoreCase CONNECTIONROLE_ACTIVE_STR t = true) := by
      rw [equalsIgnoreCase_chain _ CONNECTIONROLE_ACTPASS_STR _ (by decide) ht]
      exact Bool.false_ne_true
    have h2 : ¬ (EqualsIgnoreCase CONNECTIONROLE_PASSIVE_STR t = true) := by
      rw [equalsIgnoreCase_chain _ CONNECTIONROLE_ACTPASS_STR _ (by decide) ht]
      exact Bool.false_ne_true
    unfold StringToConnectionRole rolesArray
    simp only [stringToConnectionRoleLoop]
    rw [if_neg h1, if_neg h2, if_pos ht]
    rfl
  · unfold ConnectionRoleToString
    rw [if_neg (by decide), if_neg (by decide), if_neg (by decide), if_pos rfl]
  · intro t ht
    have h1 : ¬ (EqualsIgnoreCase CONNECTIONROLE_ACTIVE_STR t = true) := by
      rw [equalsIgnoreCase_chain _ CONNECTIONROLE_HOLDCONN_STR _ (by decide) ht]
      exact Bool.false_ne_true
    have h2 : ¬ (EqualsIgnoreCase CONNECTIONROLE_PASSIVE_STR t = true) := by
      rw [equalsIgnoreCase_chain _ CONNECTIONROLE_HOLDCONN_STR _ (by decide) ht]
      exact Bool.false_ne_true
    have h3 : ¬ (EqualsIgnoreCase CONNECTIONROLE_ACTPASS_STR t = true) := by
      rw [equalsIgnoreCase_chain _ CONNECTIONROLE_HOLDCONN_STR _ (by decide) ht]
      exact Bool.false_ne_true
    unfold StringToConnectionRole rolesArray
    simp only [stringToConnectionRoleLoop]
    rw [if_neg h1, if_neg h2, if_neg h3, if_pos ht]
    rfl

/-- Witness for the C6 theorem: round trips at concrete inputs, with the
reverse direction exercised in upper, lower and mixed case. -/
theorem connectionRole_string_round_trip_witness :
    ConnectionRoleToString CONNECTIONROLE_ACTIVE "" =
      (true, CONNECTIONROLE_ACTIVE_STR) ∧
    StringToConnectionRole "ACTIVE" CONNECTIONROLE_NONE =
      (true, CONNECTIONROLE_ACTIVE) ∧
    StringToConnectionRole "active" CONNECTIONROLE_NONE =
      (true, CONNECTIONROLE_ACTIVE) ∧
    StringToConnectionRole "Active" CONNECTIONROLE_NONE =
      (true, CONNECTIONROLE_ACTIVE) ∧
    StringToConnectionRole "HoldConn" CONNECTIONROLE_NONE =
      (true, CONNECTIONROLE_HOLDCONN) :=
  ⟨(connectionRole_string_round_trip "" CONNECTIONROLE_NONE).1.1,
   (connectionRole_string_round_trip "" CONNECTIONROLE_NONE).1.2 "ACTIVE"
     (by decide),
   (connectionRole_string_round_trip "" CONNECTIONROLE_NONE).1.2 "active"
     (by decide),
   (connectionRole_string_round_trip "" CONNECTIONROLE_NONE).1.2 "Active"
     (by decide),
   (connectionRole_string_round_trip "" CONNECTIONROLE_NONE).2.2.2.2 "HoldConn"
     (by decide)⟩

/-- C8: role-to-string conversion succeeds exactly on the four named
roles; it fails on None and on every value outside the four. -/
theorem connectionRoleToString_success_domain (role : ConnectionRole)
    (s0 : String) :
    ((ConnectionRoleToString role s0).1 = true ↔
      (role = CONNECTIONROLE_ACTIVE ∨ role = CONNECTIONROLE_PASSIVE ∨
       role = CONNECTIONROLE_ACTPASS ∨ role = CONNECTIONROLE_HOLDCONN)) ∧
    (ConnectionRoleToString CONNECTIONROLE_NONE s0).1 = false := by
  constructor
  · unfold ConnectionRoleToString
    split_ifs with h1 h2 h3 h4 <;> simp_all
  · rfl

/-- C10: on failure, both conversions leave their out-parameter at its
prior value; the out-parameter is written only on success. -/
theorem role_conversion_out_param_unchanged (s : String)
    (r0 : ConnectionRole) (role : ConnectionRole) (s0 : String) :
    ((StringToConnectionRole s r0).1 = false →
      (StringToConnectionRole s r0).2 = r0) ∧
    ((ConnectionRoleToString role s0).1 = false →
      (ConnectionRoleToString role s0).2 = s0) := by
  constructor
  · exact fun hf => stringToConnectionRoleLoop_fail s r0 rolesArray 0 hf
  · intro hf
    unfold ConnectionRoleToString at hf ⊢
    split_ifs at hf ⊢
    simp_all

/-- Witness for the C10 theorem at concrete failing inputs. -/
theorem role_conversion_out_param_unchanged_witness :
    (StringToConnectionRole "bogus" 7).2 = 7 ∧
    (ConnectionRoleToString CONNECTIONROLE_NONE "prior").2 = "prior" :=
  ⟨(role_conversion_out_param_unchanged "bogus" 7 CONNECTIONROLE_NONE
      "prior").1 (by decide),
   (role_conversion_out_param_unchanged "bogus" 7 CONNECTIONROLE_NONE
      "prior").2 (by decide)⟩

/-- C9: self-assignment (the guarded `this == &from` path) is a no-op:
the heap and every field of the description are unchanged. -/
theorem transportDescription_self_assign_noop (h : FingerprintHeap)
    (d : TransportDescription) :
    TransportDescription.assign h d d true = (h, d) := by
  unfold TransportDescription.assign
  rw [if_pos rfl]

/-- C7: both the copy constructor and (non-self) copy assignment produce
a description whose plain fields equal the source's, whose fingerprint
holds an equal value, with null mapping to null, and whose fingerprint
storage is a fresh slot never aliased with the source's. -/
theorem transportDescription_copy_deep (h : FingerprintHeap)
    (self src : TransportDescription) :
    DeepCopyOf h src (TransportDescription.copyCtor h src) ∧
    DeepCopyOf h src (TransportDescription.assign h self src false) := by
  have hcf := CopyFingerprint_spec h src.identity_fingerprint
  exact ⟨⟨rfl, rfl, rfl, rfl, rfl, rfl, hcf.1, hcf.2.1, hcf.2.2⟩,
         ⟨rfl, rfl, rfl, rfl, rfl, rfl, hcf.1, hcf.2.1, hcf.2.2⟩⟩

/-- Witness for the C7 theorem: with one allocated fingerprint at address
0, both copy paths re-copy it to a fresh distinct address. -/
theorem transportDescription_copy_deep_witness :
    (∃ b, (TransportDescription.copyCtor ⟨[⟨"sha-256", [1, 2, 3]⟩]⟩
        ⟨["opt1"], "ufrag", "pwd", IceMode.ICEMODE_FULL, CONNECTIONROLE_NONE,
         some 0, [("k", "v")]⟩).2.identity_fingerprint = some b ∧ b ≠ 0) ∧
    (∃ c, (TransportDescription.assign ⟨[⟨"sha-256", [1, 2, 3]⟩]⟩
        ⟨[], "", "", IceMode.ICEMODE_FULL, CONNECTIONROLE_NONE, none, []⟩
        ⟨["opt1"], "ufrag", "pwd", IceMode.ICEMODE_FULL, CONNECTIONROLE_NONE,
         some 0, [("k", "v")]⟩ false).2.identity_fingerprint = some c ∧
       c ≠ 0) := by
  have hc := transportDescription_copy_deep ⟨[⟨"sha-256", [1, 2, 3]⟩]⟩
      ⟨[], "", "", IceMode.ICEMODE_FULL, CONNECTIONROLE_NONE, none, []⟩
      ⟨["opt1"], "ufrag", "pwd", IceMode.ICEMODE_FULL, CONNECTIONROLE_NONE,
       some 0, [("k", "v")]⟩
  obtain ⟨-, -, -, -, -, -, -, -, hfresh1⟩ := hc.1
  obtain ⟨-, -, -, -, -, -, -, -, hfresh2⟩ := hc.2
  exact ⟨hfresh1 0 rfl Nat.zero_lt_one, hfresh2 0 rfl Nat.zero_lt_one⟩
